import Mathlib

/-
Verification of the session middleware (src/index.js) against its
natural-language specification.

The development shallowly embeds the pure decision logic of the middleware
(hash, isModified, shouldSave, shouldDestroy, shouldSetCookie, issecure,
the option defaulting) and models its two stateful phases (the store.get
callback that hydrates or generates a session, and the res.end override
that commits the session before completing the response) as explicit
state-and-trace functions.  JavaScript values are embedded as follows:
strings or undefined become Option String, JS objects serialized by
JSON.stringify become an explicit JSON syntax tree (key order preserved,
exactly as JSON.stringify preserves property insertion order), numbers
handled by the code are integers, and the asynchronous store callbacks
become explicit event traces parameterized by whether the callback fires
synchronously and whether it reports an error.
-/

namespace SessionMW

/-! ## JSON values, as serialized by JSON.stringify

JSON.stringify serializes object properties in insertion order, so the
embedding keeps object fields as an ordered list.  Mutual inductives are
used so that rendering is plain structural recursion. -/

mutual

inductive JVal where
  | num (n : Int)
  | str (s : String)
  | bool (b : Bool)
  | null
  | obj (fields : JFields)
  | arr (elems : JList)

inductive JFields where
  | nil
  | cons (key : String) (v : JVal) (rest : JFields)

inductive JList where
  | nil
  | cons (v : JVal) (rest : JList)

end

/-- String escaping for JSON string literals (the strings occurring in
session data here are ASCII without control characters, so escaping the
quote and the backslash matches what JSON.stringify outputs). -/
def escChar (c : Char) : String :=
  if c = '"' then "\\\"" else if c = '\\' then "\\\\" else String.singleton c

/-- Render a string as a JSON string literal. -/
def quoteStr (s : String) : String :=
  "\"" ++ String.join (s.data.map escChar) ++ "\""

mutual

/-- Render a JSON value the way `JSON.stringify(sess, replacer)` does in
src/index.js line 338, where the replacer
`function(key, val)` returning `val` only when key differs from
"cookie" yields undefined for every property named "cookie", omitting it from the output
at every depth.  Object fields are rendered in insertion order. -/
def renderVal : JVal → String
  | .num n => toString n
  | .str s => quoteStr s
  | .bool true => "true"
  | .bool false => "false"
  | .null => "null"
  | .obj fs => "\x7b" ++ String.intercalate "," (renderFields fs) ++ "\x7d"
  | .arr es => "[" ++ String.intercalate "," (renderElems es) ++ "]"

/-- Render the fields of a JSON object, dropping every field whose key
is "cookie" (the stringify replacer of src/index.js lines 338-340). -/
def renderFields : JFields → List String
  | .nil => []
  | .cons k v rest =>
    if k = "cookie" then renderFields rest
    else (quoteStr k ++ ":" ++ renderVal v) :: renderFields rest

/-- Render the elements of a JSON array. -/
def renderElems : JList → List String
  | .nil => []
  | .cons v rest => renderVal v :: renderElems rest

end

/-! ## CRC-32 (buffer-crc32)

The buffer-crc32 package computes the standard reflected CRC-32
(polynomial 0xEDB88320, initial value 0xFFFFFFFF, final xor 0xFFFFFFFF);
`crc32.signed` reinterprets the 32-bit result as a twos-complement
signed integer. -/

def CRC32_POLY : Nat := 0xEDB88320

/-- One CRC-32 bit-step iterated k times: shift right, xoring in the
polynomial when the low bit is set. -/
def crc32Bits : Nat → Nat → Nat
  | c, 0 => c
  | c, k+1 => crc32Bits (if c % 2 == 1 then (c / 2) ^^^ CRC32_POLY else c / 2) k

/-- Fold one byte into the CRC-32 accumulator. -/
def crc32Update (crc : Nat) (b : Nat) : Nat :=
  crc32Bits (crc ^^^ b) 8

/-- Bytes of a string.  The serialized session data handled here is
ASCII, where the UTF-8 bytes are the code points. -/
def strBytes (s : String) : List Nat :=
  s.data.map Char.toNat

/-- CRC-32 of a byte sequence (unsigned result). -/
def crc32 (bytes : List Nat) : Nat :=
  (bytes.foldl crc32Update 0xFFFFFFFF) ^^^ 0xFFFFFFFF

/-- The signed CRC-32 of buffer-crc32: the 32-bit checksum read as a
twos-complement signed integer. -/
def crc32signed (bytes : List Nat) : Int :=
  let c := crc32 bytes
  if c < 2 ^ 31 then (c : Int) else (c : Int) - 2 ^ 32

/-! ## Session, cookie and the fingerprint -/

/-- The session cookie fields read by src/index.js: `expires` (null
for a session-only cookie, otherwise an absolute timestamp), `secure`,
and `originalMaxAge` (the configured duration used by resetMaxAge).
Timestamps and durations are integer milliseconds. -/
structure SessCookie where
  expires : Option Int
  secure : Bool
  originalMaxAge : Option Int
deriving Repr

/-- Modelled from the spec: the Cookie entity lives in session/cookie.js,
which is not under src/; JSON.stringify of a cookie produces its
attribute data.  The hash replacer of src/index.js drops every "cookie"
property before this value is ever rendered, so only its existence as
the "cookie" field of the session matters to the fingerprint. -/
def cookieToJson (c : SessCookie) : JVal :=
  .obj (.cons "expires" (match c.expires with
                         | none => .null
                         | some t => .num t)
       (.cons "secure" (.bool c.secure) .nil))

/-- A session as src/index.js observes it: its id (`req.sessionID` /
`sess.id`), its cookie, and its application data fields in insertion
order.  Modelled from the spec for the parts in session/session.js (not
under src/): `id` and `req` are non-enumerable, so JSON.stringify sees
the `cookie` field followed by the data fields. -/
structure Sess where
  id : String
  cookie : SessCookie
  data : JFields

/-- The enumerable fields of the session object in serialization order:
the cookie first, then the application data. -/
def sessFields (s : Sess) : JFields :=
  .cons "cookie" (cookieToJson s.cookie) s.data

/-- The fingerprint of src/index.js lines 337-341:
`crc32.signed(JSON.stringify(sess, replacer))` where the replacer omits
every property named "cookie". -/
def hash (s : Sess) : Int :=
  crc32signed (strBytes (renderVal (.obj (sessFields s))))

/-! ## The per-request policy context and the decision functions -/

/-- Configuration and request facts fixed for one request: the id read
from the request cookie (`cookieId`, absent when no cookie was sent) and
the resolved option flags. -/
structure PolicyCtx where
  cookieId : Option String
  resave : Bool
  saveUninitialized : Bool
  rolling : Bool
  unsetDestroy : Bool

/-- The snapshot taken at load or generation time: `originalId` and
`originalHash` of src/index.js lines 237-238 and 299-300. -/
structure Snapshot where
  originalId : String
  originalHash : Int

/-- JavaScript truthiness of `req.sessionID` (a string or undefined):
undefined and the empty string are falsy. -/
def strTruthy : Option String → Bool
  | none => false
  | some s => s != ""

/-- Change detection of src/index.js lines 242-244:
`originalHash != hash(sess) || originalId != sess.id`. -/
def isModified (snap : Snapshot) (sess : Sess) : Bool :=
  snap.originalHash != hash sess || snap.originalId != sess.id

/-- Destroy decision of src/index.js lines 247-249:
`req.sessionID && unsetDestroy && req.session == null`. -/
def shouldDestroy (ctx : PolicyCtx) (sessionID : Option String)
    (session : Option Sess) : Bool :=
  strTruthy sessionID && ctx.unsetDestroy && session.isNone

/-- Save decision of src/index.js lines 252-256. -/
def shouldSave (ctx : PolicyCtx) (snap : Snapshot) (sessionID : Option String)
    (sess : Sess) : Bool :=
  if ctx.cookieId != sessionID
  then ctx.saveUninitialized || isModified snap sess
  else ctx.resave || isModified snap sess

/-- Cookie decision of src/index.js lines 259-268. -/
def shouldSetCookie (ctx : PolicyCtx) (snap : Snapshot)
    (sessionID : Option String) (sess : Sess) : Bool :=
  if ctx.rolling then true
  else if ctx.cookieId != sessionID
  then ctx.saveUninitialized || isModified snap sess
  else sess.cookie.expires != none && isModified snap sess

/-! ## Secure-request determination and cookie emission -/

/-- Request facts read by issecure: whether the connection socket is
TLS-encrypted (`req.connection.encrypted`), the upstream `req.secure`
flag (undefined or a boolean), and the x-forwarded-proto header
(undefined when absent). -/
structure SecReq where
  encrypted : Bool
  reqSecure : Option Bool
  xForwardedProto : Option String

/-- Secure-request check of src/index.js lines 352-379.  `trustProxy`
is the raw `proxy` option: `some true`, `some false`, or `none` when
unset.  The header handling mirrors the source: take the part before the
first comma (the whole header when there is none), lowercase, trim, and
compare with "https". -/
def issecure (req : SecReq) (trustProxy : Option Bool) : Bool :=
  if req.encrypted then true
  else if trustProxy == some false then false
  else if trustProxy != some true then
    match req.reqSecure with
    | some b => b
    | none => false
  else
    let header := req.xForwardedProto.getD ""
    let proto := ((header.splitOn ",").headD "").toLower.trim
    proto == "https"

/-- The onHeaders callback of src/index.js lines 138-157, reduced to its
observable decision: whether `setcookie` is invoked for this response.
It declines when no session is attached, when the cookie is marked
secure but the request is not secure, and when shouldSetCookie says no. -/
def onHeadersEmit (ctx : PolicyCtx) (snap : Snapshot) (trustProxy : Option Bool)
    (secReq : SecReq) (sessionID : Option String) (session : Option Sess) : Bool :=
  match session with
  | none => false
  | some sess =>
    if sess.cookie.secure && !issecure secReq trustProxy then false
    else if !shouldSetCookie ctx snap sessionID sess then false
    else true

/-! ## Option defaulting -/

/-- Resolution of the `resave` option (src/index.js lines 74, 83-86):
undefined defaults to true (with a deprecation notice). -/
def resolveResave (o : Option Bool) : Bool :=
  match o with
  | none => true
  | some b => b

/-- Resolution of the `saveUninitialized` option (src/index.js lines
75, 88-91): undefined defaults to true (with a deprecation notice). -/
def resolveSaveUninitialized (o : Option Bool) : Bool :=
  match o with
  | none => true
  | some b => b

/-! ## The res.end override as a trace-producing step function

The override (src/index.js lines 160-232) guards on an `ended` flag,
then either destroys the session, saves it, or just completes the
response; the underlying `end` is called from inside the store callback
when one is pending.  The asynchronous store is modelled by a behaviour
record saying whether its callback reports an error and whether it fires
synchronously (before `store.destroy`/`session.save` returns), which is
exactly the distinction the `sync` flag of the source exists for. -/

/-- Observable events of response finalization.  `nextError` is the
downstream error path (`next(err)`); it is part of the vocabulary so
that its absence from a trace is expressible. -/
inductive Ev where
  | storeDestroy (id : Option String)
  | storeSave (id : Option String)
  | consoleError
  | resWrite
  | endCall
  | nextError
deriving DecidableEq, Repr

/-- Behaviour of one store callback: whether it is invoked with an
error, and whether it fires synchronously. -/
structure StoreBeh where
  failed : Bool
  syncCb : Bool

/-- Result of one invocation of the overridden `res.end`: the `ended`
flag afterwards, whether the call took the `return false` path of the guard,
and the trace of events it caused (including those of the store
callback). -/
structure EndOutcome where
  ended : Bool
  guardReturnFalse : Bool
  events : List Ev
deriving DecidableEq, Repr

/-- Modelled from the spec: `resetMaxAge` lives in session/session.js
and session/cookie.js, which are not under src/.  Per the spec, when
`cookie.originalMaxAge` is set it recomputes
`cookie.expires = now + originalMaxAge`; otherwise the cookie is left as
configured. -/
def resetMaxAge (now : Int) (sess : Sess) : Sess :=
  match sess.cookie.originalMaxAge with
  | none => sess
  | some d =>
    { sess with cookie := { sess.cookie with expires := some (now + d) } }

/-- The trace produced by a store callback that, as in src/index.js
lines 179-190 and 210-221, logs `err.stack` on error and then invokes
the real `end`: when the callback fires synchronously it runs before the
`if (sync)` chunk-flush, so no separate write happens; otherwise the
chunk was already flushed by `res.write` and the callback only ends the
response. -/
def commitTrace (call : Ev) (beh : StoreBeh) : List Ev :=
  let cb := (if beh.failed then [Ev.consoleError] else []) ++ [Ev.endCall]
  if beh.syncCb then call :: cb else call :: Ev.resWrite :: cb

/-- One invocation of the overridden `res.end` of src/index.js lines
162-232, given the current value of the `ended` flag. -/
def resEnd (ctx : PolicyCtx) (snap : Snapshot) (now : Int)
    (sessionID : Option String) (session : Option Sess) (beh : StoreBeh)
    (ended : Bool) : EndOutcome :=
  if ended then ⟨ended, true, []⟩
  else if shouldDestroy ctx sessionID session then
    ⟨true, false, commitTrace (Ev.storeDestroy sessionID) beh⟩
  else
    match session with
    | none => ⟨true, false, [Ev.endCall]⟩
    | some sess =>
      let sess1 := resetMaxAge now sess
      if shouldSave ctx snap sessionID sess1 then
        ⟨true, false, commitTrace (Ev.storeSave sessionID) beh⟩
      else ⟨true, false, [Ev.endCall]⟩

/-! ## The store.get callback: hydrate, generate, or fail

This models src/index.js lines 235-239 (generate) and 280-303 (the
store.get callback), together with `store.generate` (lines 107-111). -/

/-- Outcome of `store.get(id, cb)` as seen by the callback: an error
object carrying a code, a miss (no error and no record), or a found
record. -/
inductive GetOutcome where
  | error (code : String)
  | nothingFound
  | found (sess : Sess)

/-- State after the lookup phase hands control downstream: the attached
session (undefined on the error path), the snapshots, and whether `next`
was called with an error. -/
structure AfterLookup where
  sessionID : Option String
  session : Option Sess
  originalId : Option String
  originalHash : Option Int
  nextErr : Bool

/-- Fresh session built by `store.generate` (src/index.js lines
107-111): the generated id, a new Cookie from the configured cookie
options, and blank data (Session construction per the spec, the Session
entity living outside src/). -/
def generateSess (genId : String) (cookieCfg : SessCookie) : Sess :=
  ⟨genId, cookieCfg, .nil⟩

/-- The `generate` closure of src/index.js lines 235-239: run
`store.generate`, then snapshot `originalId = req.sessionID` and
`originalHash = hash(req.session)`. -/
def generate (genId : String) (cookieCfg : SessCookie) : AfterLookup :=
  let s := generateSess genId cookieCfg
  ⟨some genId, some s, some genId, some (hash s), false⟩

/-- The store.get callback of src/index.js lines 280-303.  An error
whose code is "ENOENT" and a missing record both generate a fresh
session; any other error goes to `next(err)` with no session attached;
a found record is attached with snapshots taken from the loaded data. -/
def getCallback (genId : String) (cookieCfg : SessCookie)
    (incomingId : String) (r : GetOutcome) : AfterLookup :=
  match r with
  | .error code =>
    if code == "ENOENT" then generate genId cookieCfg
    else ⟨some incomingId, none, none, none, true⟩
  | .nothingFound => generate genId cookieCfg
  | .found sess =>
    ⟨some incomingId, some sess, some incomingId, some (hash sess), false⟩

/-- Number of response completions (invocations of the real `end`) in a
trace. -/
def countEnd : List Ev → Nat
  | [] => 0
  | Ev.endCall :: r => countEnd r + 1
  | _ :: r => countEnd r

/-- Fields of a session as a list of key-value pairs, for stating
facts about the data as a mapping. -/
def fieldsList : JFields → List (String × JVal)
  | .nil => []
  | .cons k v r => (k, v) :: fieldsList r

/-! Concrete fixtures used by witnesses and counterexamples. -/

/-- A session-only cookie: no expiry, not secure, no original max-age. -/
def plainCookie : SessCookie := ⟨none, false, none⟩

/-- A secure cookie without expiry. -/
def secureCookie : SessCookie := ⟨none, true, none⟩

/-- An empty session under id "sid1". -/
def sessBlank : Sess := ⟨"sid1", plainCookie, .nil⟩

/-- Session with data fields a=1, b=2 in that insertion order. -/
def sessOrderAB : Sess :=
  ⟨"sid1", plainCookie, .cons "a" (.num 1) (.cons "b" (.num 2) .nil)⟩

/-- Session with the same data fields as `sessOrderAB` in the opposite
insertion order: b=2, a=1. -/
def sessOrderBA : Sess :=
  ⟨"sid1", plainCookie, .cons "b" (.num 2) (.cons "a" (.num 1) .nil)⟩

/-- Session with the data of `sessOrderAB` but a mutated cookie. -/
def sessOtherCookie : Sess :=
  ⟨"sid1", ⟨some 99, true, some 7⟩, .cons "a" (.num 1) (.cons "b" (.num 2) .nil)⟩

/-- Policy context: unmodified-id request with resave and
saveUninitialized disabled. -/
def ctxQuiet : PolicyCtx := ⟨some "sid1", false, false, false, false⟩

/-- Policy context with rolling enabled. -/
def ctxRolling : PolicyCtx := ⟨some "sid1", false, false, true, false⟩

/-- Policy context with unset="destroy". -/
def ctxUnsetDestroy : PolicyCtx := ⟨some "sid1", false, false, false, true⟩

/-- Policy context with resave enabled (the default). -/
def ctxResave : PolicyCtx := ⟨some "sid1", true, true, false, false⟩

/-- Snapshot taken from `sessBlank` at generation time. -/
def snapBlank : Snapshot := ⟨sessBlank.id, hash sessBlank⟩

/-- A request over plain HTTP behind a proxy that claims https via the
x-forwarded-proto header. -/
def reqForwardedHttps : SecReq := ⟨false, some true, some "https"⟩

/-! Helper lemmas about the fingerprint. -/

/-- Rendering drops a leading "cookie" field. -/
theorem renderFields_cookie (v : JVal) (d : JFields) :
    renderFields (.cons "cookie" v d) = renderFields d := by
  simp [renderFields]

/-- The fingerprint depends only on the data fields: the "cookie" field
is dropped by the stringify replacer before hashing. -/
theorem hash_data_only (s : Sess) :
    hash s = crc32signed (strBytes
      ("\x7b" ++ String.intercalate "," (renderFields s.data) ++ "\x7d")) := by
  unfold hash sessFields
  rw [renderVal, renderFields_cookie]

/-! Claim theorems. -/

/-- C1: at response finalization, shouldSave is: if the id changed from
the one the request cookie carried then (saveUninitialized or
isModified) else (resave or isModified); isModified holds exactly when
the current fingerprint differs from the snapshot or the id differs from
the snapshot; and with resave disabled, data unmodified and id unchanged
no save happens. -/
theorem shouldSave_policy (ctx : PolicyCtx) (snap : Snapshot)
    (sessionID : Option String) (sess : Sess) :
    (shouldSave ctx snap sessionID sess
      = if ctx.cookieId != sessionID
        then ctx.saveUninitialized || isModified snap sess
        else ctx.resave || isModified snap sess)
    ∧ (isModified snap sess = true ↔
        hash sess ≠ snap.originalHash ∨ sess.id ≠ snap.originalId)
    ∧ (ctx.resave = false → hash sess = snap.originalHash →
        sess.id = snap.originalId → ctx.cookieId = sessionID →
        shouldSave ctx snap sessionID sess = false) := by
  refine ⟨rfl, ?_, ?_⟩
  · simp [isModified, bne_iff_ne, ne_comm]
  · intro h1 h2 h3 h4
    simp [shouldSave, h4, h1, isModified, h2, h3]

/-- Witness for C1 at a concrete quiet request: resave off, data and id
unchanged, so no save. -/
theorem shouldSave_policy_witness :
    shouldSave ctxQuiet snapBlank (some "sid1") sessBlank = false :=
  (shouldSave_policy ctxQuiet snapBlank (some "sid1") sessBlank).2.2
    rfl rfl rfl rfl

/-- C2: the overridden end runs its finalization at most once: the
first call flips the `ended` flag, and any call with the flag already
set returns the failure indicator false, produces no events (no store
write, no destroy, no response completion). -/
theorem resEnd_runs_once (ctx : PolicyCtx) (snap : Snapshot) (now : Int)
    (sessionID : Option String) (session : Option Sess) (beh : StoreBeh) :
    (resEnd ctx snap now sessionID session beh false).ended = true
    ∧ resEnd ctx snap now sessionID session beh true
        = ⟨true, true, []⟩ := by
  refine ⟨?_, rfl⟩
  unfold resEnd
  simp only [Bool.false_eq_true, if_false]
  split
  · rfl
  · cases session with
    | none => rfl
    | some sess =>
      dsimp only
      split <;> rfl

/-- C6: with rolling enabled, shouldSetCookie is true for every request
with a session, regardless of modification state or id changes. -/
theorem shouldSetCookie_rolling (ctx : PolicyCtx) (snap : Snapshot)
    (sessionID : Option String) (sess : Sess) (h : ctx.rolling = true) :
    shouldSetCookie ctx snap sessionID sess = true := by
  simp [shouldSetCookie, h]

/-- Witness for C6: rolling context, unmodified blank session. -/
theorem shouldSetCookie_rolling_witness :
    shouldSetCookie ctxRolling snapBlank (some "sid1") sessBlank = true :=
  shouldSetCookie_rolling ctxRolling snapBlank (some "sid1") sessBlank rfl

/-- C10: omitted resave and saveUninitialized options default to true,
and under these defaults every finalization with a session attached
saves it, modified or not, fresh or not. -/
theorem default_options_save_always :
    resolveResave none = true
    ∧ resolveSaveUninitialized none = true
    ∧ ∀ (cookieId : Option String) (rolling unsetDestroy : Bool)
        (snap : Snapshot) (sessionID : Option String) (sess : Sess),
        shouldSave
          ⟨cookieId, resolveResave none, resolveSaveUninitialized none,
           rolling, unsetDestroy⟩ snap sessionID sess = true := by
  refine ⟨rfl, rfl, ?_⟩
  intro cookieId rolling unsetDestroy snap sessionID sess
  simp [shouldSave, resolveResave, resolveSaveUninitialized]

/-- C4: with trust-proxy explicitly false and an unencrypted
connection, the request is never considered secure — whatever the
x-forwarded-proto header or the upstream secure flag claim — so a
secure-marked cookie is never emitted. -/
theorem secure_cookie_needs_secure_transport (ctx : PolicyCtx) (snap : Snapshot)
    (secReq : SecReq) (sessionID : Option String) (sess : Sess)
    (henc : secReq.encrypted = false) (hsec : sess.cookie.secure = true) :
    issecure secReq (some false) = false
    ∧ onHeadersEmit ctx snap (some false) secReq sessionID (some sess) = false := by
  have h1 : issecure secReq (some false) = false := by
    simp [issecure, henc]
  exact ⟨h1, by simp [onHeadersEmit, h1, hsec]⟩

/-- Witness for C4: plain HTTP request whose x-forwarded-proto header
claims https, secure cookie, trust-proxy false: no cookie is emitted. -/
theorem secure_cookie_needs_secure_transport_witness :
    issecure reqForwardedHttps (some false) = false
    ∧ onHeadersEmit ctxQuiet snapBlank (some false) reqForwardedHttps
        (some "sid1") (some ⟨"sid1", secureCookie, .nil⟩) = false :=
  secure_cookie_needs_secure_transport ctxQuiet snapBlank reqForwardedHttps
    (some "sid1") ⟨"sid1", secureCookie, .nil⟩ rfl rfl

/-- C8: a store miss — an error with code ENOENT, or no error and no
record — is not an error: a fresh blank session under the newly
generated id is attached, the snapshots are taken from that fresh
session, and next is called without an error. -/
theorem store_miss_generates (genId : String) (cookieCfg : SessCookie)
    (incomingId : String) :
    getCallback genId cookieCfg incomingId (.error "ENOENT")
      = ⟨some genId, some (generateSess genId cookieCfg), some genId,
         some (hash (generateSess genId cookieCfg)), false⟩
    ∧ getCallback genId cookieCfg incomingId .nothingFound
      = ⟨some genId, some (generateSess genId cookieCfg), some genId,
         some (hash (generateSess genId cookieCfg)), false⟩
    ∧ (generateSess genId cookieCfg).id = genId
    ∧ (generateSess genId cookieCfg).data = .nil :=
  ⟨rfl, rfl, rfl, rfl⟩

/-- Unfolding of the destroy branch of the end override. -/
theorem resEnd_destroy (ctx : PolicyCtx) (snap : Snapshot) (now : Int)
    (sessionID : Option String) (session : Option Sess) (beh : StoreBeh)
    (h : shouldDestroy ctx sessionID session = true) :
    resEnd ctx snap now sessionID session beh false
      = ⟨true, false, commitTrace (Ev.storeDestroy sessionID) beh⟩ := by
  unfold resEnd
  simp [h]

/-- C5: with unset="destroy", an existing id and a nulled session,
finalization calls store.destroy on that id first, the response
completes exactly once with the real end invoked from the destroy
callback (it is the last event of the trace), and no session cookie is
emitted. -/
theorem destroy_path_commits_once (ctx : PolicyCtx) (snap : Snapshot)
    (now : Int) (i : String) (beh : StoreBeh) (trustProxy : Option Bool)
    (secReq : SecReq) (hid : i ≠ "") (hunset : ctx.unsetDestroy = true) :
    (resEnd ctx snap now (some i) none beh false).events.head?
        = some (Ev.storeDestroy (some i))
    ∧ countEnd (resEnd ctx snap now (some i) none beh false).events = 1
    ∧ (resEnd ctx snap now (some i) none beh false).events.getLast?
        = some Ev.endCall
    ∧ onHeadersEmit ctx snap trustProxy secReq (some i) none = false := by
  have hid2 : (i != "") = true := bne_iff_ne.mpr hid
  have hd : shouldDestroy ctx (some i) none = true := by
    simp [shouldDestroy, strTruthy, hid2, hunset]
  rw [resEnd_destroy ctx snap now (some i) none beh hd]
  obtain ⟨f, s⟩ := beh
  cases f <;> cases s <;> exact ⟨rfl, rfl, rfl, rfl⟩

/-- Witness for C5: destroy policy on session "sid1" with an
asynchronous, successful destroy callback. -/
theorem destroy_path_commits_once_witness :
    (resEnd ctxUnsetDestroy snapBlank 0 (some "sid1") none ⟨false, false⟩
        false).events.head? = some (Ev.storeDestroy (some "sid1"))
    ∧ countEnd (resEnd ctxUnsetDestroy snapBlank 0 (some "sid1") none
        ⟨false, false⟩ false).events = 1
    ∧ (resEnd ctxUnsetDestroy snapBlank 0 (some "sid1") none ⟨false, false⟩
        false).events.getLast? = some Ev.endCall
    ∧ onHeadersEmit ctxUnsetDestroy snapBlank none reqForwardedHttps
        (some "sid1") none = false :=
  destroy_path_commits_once ctxUnsetDestroy snapBlank 0 "sid1" ⟨false, false⟩
    none reqForwardedHttps (by decide) rfl

/-- C9: two sessions that differ only in their cookie field have equal
fingerprints, and hence equal isModified verdicts against any
snapshot. -/
theorem hash_cookie_mutation_invariant (s1 s2 : Sess) (snap : Snapshot)
    (hid : s1.id = s2.id) (hdata : s1.data = s2.data) :
    hash s1 = hash s2 ∧ isModified snap s1 = isModified snap s2 := by
  have hh : hash s1 = hash s2 := by
    rw [hash_data_only, hash_data_only, hdata]
  exact ⟨hh, by simp [isModified, hh, hid]⟩

/-- Witness for C9: same id and data, cookie mutated (expiry, secure
flag and max-age all changed). -/
theorem hash_cookie_mutation_invariant_witness :
    hash sessOrderAB = hash sessOtherCookie
    ∧ isModified snapBlank sessOrderAB = isModified snapBlank sessOtherCookie :=
  hash_cookie_mutation_invariant sessOrderAB sessOtherCookie snapBlank rfl rfl

/-- C3 counterexample: two sessions whose data agree as key-value
mappings (one is a permutation of the other) but with different
insertion orders have different fingerprints: the serialization is the
insertion-ordered JSON.stringify output, not a key-canonical form. -/
theorem hash_key_order_counterexample :
    (fieldsList sessOrderAB.data).Perm (fieldsList sessOrderBA.data)
    ∧ hash sessOrderAB ≠ hash sessOrderBA := by
  constructor
  · exact List.Perm.swap _ _ _
  · set_option maxRecDepth 20000 in decide

/-- C3 amended: the fingerprint is computed over the insertion-ordered
serialization, so it is unchanged whenever the data fields agree as
ordered lists (same keys, same values, same order), whatever the cookie
and id; key-order permutations of the same mapping are not covered and
can change it. -/
theorem hash_insertion_order_stable (s1 s2 : Sess) (hdata : s1.data = s2.data) :
    hash s1 = hash s2 := by
  rw [hash_data_only, hash_data_only, hdata]

/-- Witness for the amended C3: same ordered data under a different id
and cookie. -/
theorem hash_insertion_order_stable_witness :
    hash sessOrderAB = hash ⟨"zzz", secureCookie, sessOrderAB.data⟩ :=
  hash_insertion_order_stable sessOrderAB ⟨"zzz", secureCookie, sessOrderAB.data⟩ rfl

/-- First invocation of the end override takes one of three branches:
a destroy commit, a save commit, or an immediate completion. -/
theorem resEnd_first_cases (ctx : PolicyCtx) (snap : Snapshot) (now : Int)
    (sessionID : Option String) (session : Option Sess) (beh : StoreBeh) :
    resEnd ctx snap now sessionID session beh false
      = ⟨true, false, commitTrace (Ev.storeDestroy sessionID) beh⟩
    ∨ resEnd ctx snap now sessionID session beh false
      = ⟨true, false, commitTrace (Ev.storeSave sessionID) beh⟩
    ∨ resEnd ctx snap now sessionID session beh false
      = ⟨true, false, [Ev.endCall]⟩ := by
  unfold resEnd
  simp only [Bool.false_eq_true, if_false]
  split
  · exact Or.inl rfl
  · cases session with
    | none => exact Or.inr (Or.inr rfl)
    | some sess =>
      dsimp only
      split
      · exact Or.inr (Or.inl rfl)
      · exact Or.inr (Or.inr rfl)

/-- C7 counterexample: a failing store save during finalization (resave
enabled, the backend reports the error to the save callback) is only
logged to the console; the trace contains no next(err) event, so the
error never reaches the downstream error path. -/
theorem save_error_no_downstream_counterexample :
    (resEnd ctxResave snapBlank 0 (some "sid1") (some sessBlank)
        ⟨true, false⟩ false).events
      = [Ev.storeSave (some "sid1"), Ev.resWrite, Ev.consoleError, Ev.endCall]
    ∧ Ev.nextError ∉ (resEnd ctxResave snapBlank 0 (some "sid1") (some sessBlank)
        ⟨true, false⟩ false).events :=
  ⟨rfl, by decide⟩

/-- C7 amended: a non-miss store error on get goes to next(err) with no
session attached for the turn, while a store error reported by the
set or destroy callback during finalization is logged to the console,
never reaches next(err), and the response still completes exactly
once. -/
theorem storeError_paths (genId : String) (cookieCfg : SessCookie)
    (incomingId : String) (code : String) (ctx : PolicyCtx) (snap : Snapshot)
    (now : Int) (sessionID : Option String) (session : Option Sess)
    (beh : StoreBeh) (hcode : code ≠ "ENOENT") (hfail : beh.failed = true) :
    getCallback genId cookieCfg incomingId (.error code)
      = ⟨some incomingId, none, none, none, true⟩
    ∧ countEnd (resEnd ctx snap now sessionID session beh false).events = 1
    ∧ Ev.nextError ∉ (resEnd ctx snap now sessionID session beh false).events
    ∧ ((Ev.storeSave sessionID
          ∈ (resEnd ctx snap now sessionID session beh false).events
        ∨ Ev.storeDestroy sessionID
          ∈ (resEnd ctx snap now sessionID session beh false).events)
       → Ev.consoleError
          ∈ (resEnd ctx snap now sessionID session beh false).events) := by
  have hget : getCallback genId cookieCfg incomingId (.error code)
      = ⟨some incomingId, none, none, none, true⟩ := by
    have hc : (code == "ENOENT") = false := beq_eq_false_iff_ne.mpr hcode
    simp [getCallback, hc]
  obtain ⟨f, s⟩ := beh
  subst hfail
  rcases resEnd_first_cases ctx snap now sessionID session ⟨true, s⟩ with h | h | h <;>
    rw [h] at * <;> rw [h] <;>
    cases s <;>
    refine ⟨hget, rfl, ?_, ?_⟩ <;>
    simp [commitTrace]

/-- Witness for the amended C7: concrete get failure with code EIO and
a finalization whose save callback fails asynchronously. -/
theorem storeError_paths_witness :
    getCallback "gid" plainCookie "sid1" (.error "EIO")
      = ⟨some "sid1", none, none, none, true⟩
    ∧ countEnd (resEnd ctxResave snapBlank 0 (some "sid1") (some sessBlank)
        ⟨true, true⟩ false).events = 1
    ∧ Ev.nextError ∉ (resEnd ctxResave snapBlank 0 (some "sid1")
        (some sessBlank) ⟨true, true⟩ false).events
    ∧ ((Ev.storeSave (some "sid1")
          ∈ (resEnd ctxResave snapBlank 0 (some "sid1") (some sessBlank)
              ⟨true, true⟩ false).events
        ∨ Ev.storeDestroy (some "sid1")
          ∈ (resEnd ctxResave snapBlank 0 (some "sid1") (some sessBlank)
              ⟨true, true⟩ false).events)
       → Ev.consoleError
          ∈ (resEnd ctxResave snapBlank 0 (some "sid1") (some sessBlank)
              ⟨true, true⟩ false).events) :=
  storeError_paths "gid" plainCookie "sid1" "EIO" ctxResave snapBlank 0
    (some "sid1") (some sessBlank) ⟨true, true⟩ (by decide) rfl

end SessionMW
